import Mathlib

/-!
Shallow embedding of the heating decision engine of the
`zone_heater_manager` repository (directory `src/smart_heating/`).

Temperatures are modelled as rationals (the source uses Python floats, but
every operation appearing in the verified claims is comparison, `max`,
addition and subtraction, which the rational model reflects faithfully).
Times of day (`"HH:MM"` strings and `datetime.time` values in the source)
are modelled as minutes since midnight; comparison of zero-padded `"HH:MM"`
strings and of `time` objects coincides with comparison of minute counts.
Weekdays are modelled by their Python `datetime.weekday()` index
(Monday = 0); the source's `"Monday"`/`"mon"` string pairs are in bijection
with these indices via `day_map`.  Absolute instants (`datetime.now()`,
`boost_end_time`) are modelled by a rational timestamp.
-/

namespace SmartHeating

/-- A point in time as the engine observes it: weekday index
(Python `weekday()`, Monday = 0), minutes since midnight, and an absolute
timestamp used for `datetime` comparisons such as boost expiry. -/
structure DateTime where
  weekday : Nat
  minutes : Nat
  ts : ℚ
deriving DecidableEq

/-- `action_when_open` of a window sensor configuration
(`area_manager.py`, `add_window_sensor` / `get_effective_target_temperature`).
Any string other than `"turn_off"` and `"reduce_temperature"` is skipped by
the window loop exactly like `"none"`, so all such strings are modelled by
`noAction`. -/
inductive WindowAction
  | turnOff
  | reduceTemperature
  | noAction
deriving DecidableEq

/-- A window sensor configuration entry (`area.window_sensors` list), together
with the snapshot of the sensor's reported open state that
`_async_update_sensor_states` reads from Home Assistant. -/
structure WindowSensor where
  entityId : String
  actionWhenOpen : WindowAction
  /-- `sensor.get("temp_drop", DEFAULT_WINDOW_OPEN_TEMP_DROP)` with the
  default `5.0` already applied. -/
  tempDrop : ℚ
  isOpen : Bool
deriving DecidableEq

/-- A schedule entry (`class Schedule` in `area_manager.py`).  The
constructor of the source sets `time = start_time`, `days = [day_map[day]]`
when a single `day` is given, and `end_time = end_time or "23:59"`. -/
structure Schedule where
  scheduleId : String
  /-- `start_time` (also aliased as `time` by the source constructor),
  minutes since midnight. -/
  startTime : Nat
  /-- `end_time`, minutes since midnight. -/
  endTime : Nat
  /-- literal target temperature; `none` when the schedule references a
  preset mode instead. -/
  temperature : Option ℚ
  presetMode : Option String
  /-- `day` field of the new format (weekday index). -/
  day : Nat
  /-- `days` list of weekday indices (lowercase codes in the source). -/
  days : List Nat
  enabled : Bool
deriving DecidableEq

/-- A device entry of an area (`area.devices` dict): id and type. -/
structure Device where
  deviceId : String
  deviceType : String
deriving DecidableEq

/-- A heating area (`class Area` in `area_manager.py`), restricted to the
fields the heating decision engine reads.  `state` models the `_state`
attribute written by the climate controller. -/
structure Area where
  areaId : String
  targetTemperature : ℚ
  enabled : Bool
  devices : List Device
  schedules : List Schedule
  currentTemperature : Option ℚ
  nightBoostEnabled : Bool
  nightBoostOffset : ℚ
  nightBoostStartTime : Nat
  nightBoostEndTime : Nat
  presetMode : String
  awayTemp : ℚ
  ecoTemp : ℚ
  comfortTemp : ℚ
  homeTemp : ℚ
  sleepTemp : ℚ
  activityTemp : ℚ
  useGlobalAway : Bool
  useGlobalEco : Bool
  useGlobalComfort : Bool
  useGlobalHome : Bool
  useGlobalSleep : Bool
  useGlobalActivity : Bool
  boostModeActive : Bool
  boostTemp : ℚ
  boostEndTime : Option ℚ
  hvacMode : String
  windowSensors : List WindowSensor
  windowIsOpen : Bool
  manualOverride : Bool
  state : String
deriving DecidableEq

/-- Global configuration owned by `AreaManager` (`area_manager.py`,
`AreaManager.__init__`). -/
structure AreaManagerCfg where
  openthermGatewayId : Option String
  openthermEnabled : Bool
  trvHeatingTemp : ℚ
  trvIdleTemp : ℚ
  trvTempOffset : ℚ
  frostProtectionEnabled : Bool
  frostProtectionTemp : ℚ
  hysteresis : ℚ
  globalAwayTemp : ℚ
  globalEcoTemp : ℚ
  globalComfortTemp : ℚ
  globalHomeTemp : ℚ
  globalSleepTemp : ℚ
  globalActivityTemp : ℚ
deriving DecidableEq

/-- Default values of `Area.__init__` (with no devices, schedules or
sensors). -/
def defaultArea : Area where
  areaId := "area"
  targetTemperature := 20
  enabled := true
  devices := []
  schedules := []
  currentTemperature := none
  nightBoostEnabled := true
  nightBoostOffset := 1/2
  nightBoostStartTime := 22 * 60
  nightBoostEndTime := 6 * 60
  presetMode := "none"
  awayTemp := 16
  ecoTemp := 18
  comfortTemp := 22
  homeTemp := 20
  sleepTemp := 37/2
  activityTemp := 21
  useGlobalAway := true
  useGlobalEco := true
  useGlobalComfort := true
  useGlobalHome := true
  useGlobalSleep := true
  useGlobalActivity := true
  boostModeActive := false
  boostTemp := 25
  boostEndTime := none
  hvacMode := "heat"
  windowSensors := []
  windowIsOpen := false
  manualOverride := false
  state := "idle"

/-- Default values of `AreaManager.__init__`. -/
def defaultCfg : AreaManagerCfg where
  openthermGatewayId := none
  openthermEnabled := false
  trvHeatingTemp := 25
  trvIdleTemp := 10
  trvTempOffset := 10
  frostProtectionEnabled := false
  frostProtectionTemp := 7
  hysteresis := 1/2
  globalAwayTemp := 16
  globalEcoTemp := 18
  globalComfortTemp := 22
  globalHomeTemp := 20
  globalSleepTemp := 37/2
  globalActivityTemp := 21

/-- `Schedule.is_active` (`area_manager.py` lines 124-147): enabled, current
weekday in `days`, and current time of day at or after the start time (the
end time is not consulted by this method). -/
def Schedule.isActive (s : Schedule) (now : DateTime) : Bool :=
  s.enabled && s.days.contains now.weekday && decide (s.startTime ≤ now.minutes)

/-- Head of the stable descending sort of a schedule list by `time`
(start time): `active_schedules.sort(key=lambda s: s.time, reverse=True);
active_schedules[0]` in `Area.get_active_schedule_temperature`.  Python's
sort is stable and `reverse=True` preserves stability, so among schedules
with the maximal start time the first in list order is chosen, which is
exactly what this recursion computes. -/
def pickLatest : List Schedule → Option Schedule
  | [] => none
  | s :: rest =>
    match pickLatest rest with
    | none => some s
    | some t => if s.startTime < t.startTime then some t else some s

/-- `Area.get_active_schedule_temperature` (`area_manager.py` lines
532-555): filter the active schedules, take the one with the latest start
time, and return its (possibly absent) literal temperature. -/
def Area.getActiveScheduleTemperature (z : Area) (now : DateTime) : Option ℚ :=
  match pickLatest (z.schedules.filter (·.isActive now)) with
  | none => none
  | some s => s.temperature

/-- `Area.get_preset_temperature` (`area_manager.py` lines 418-459), in the
branch where the `area_manager` reference is present: each preset resolves
to the global or the area-local temperature according to its
`use_global_*` flag; `boost` is always area-specific; an unknown preset
falls back to the base target temperature. -/
def Area.getPresetTemperature (gm : AreaManagerCfg) (z : Area) : ℚ :=
  if z.presetMode = "away" then
    if z.useGlobalAway then gm.globalAwayTemp else z.awayTemp
  else if z.presetMode = "eco" then
    if z.useGlobalEco then gm.globalEcoTemp else z.ecoTemp
  else if z.presetMode = "comfort" then
    if z.useGlobalComfort then gm.globalComfortTemp else z.comfortTemp
  else if z.presetMode = "home" then
    if z.useGlobalHome then gm.globalHomeTemp else z.homeTemp
  else if z.presetMode = "sleep" then
    if z.useGlobalSleep then gm.globalSleepTemp else z.sleepTemp
  else if z.presetMode = "activity" then
    if z.useGlobalActivity then gm.globalActivityTemp else z.activityTemp
  else if z.presetMode = "boost" then z.boostTemp
  else z.targetTemperature

/-- `Area.cancel_boost_mode` (`area_manager.py` lines 493-499). -/
def Area.cancelBoostMode (z : Area) : Area :=
  if z.boostModeActive then
    { z with boostModeActive := false, boostEndTime := none, presetMode := "none" }
  else z

/-- `Area.check_boost_expiry` (`area_manager.py` lines 501-511), with the
instant the source obtains from `datetime.now()` passed explicitly as
`now`. -/
def Area.checkBoostExpiry (z : Area) (now : ℚ) : Area :=
  if z.boostModeActive then
    match z.boostEndTime with
    | some e => if e ≤ now then z.cancelBoostMode else z
    | none => z
  else z

/-- The `for sensor in self.window_sensors` loop of
`Area.get_effective_target_temperature` (lines 586-595): the first sensor
whose action is `turn_off` yields the frost-safe floor `5.0`, the first
whose action is `reduce_temperature` yields
`max(5.0, base_target - temp_drop)`, sensors with any other action are
skipped; if no sensor triggers, the loop falls through (`none`).  The
per-sensor `isOpen` state is not consulted by this loop. -/
def windowLoop (sensors : List WindowSensor) (baseTarget : ℚ) : Option ℚ :=
  match sensors with
  | [] => none
  | s :: rest =>
    match s.actionWhenOpen with
    | .turnOff => some 5
    | .reduceTemperature => some (max 5 (baseTarget - s.tempDrop))
    | .noAction => windowLoop rest baseTarget

/-- The night-boost time-window test of
`Area.get_effective_target_temperature` (lines 620-637): start/end compared
as minutes since midnight, with a window crossing midnight when
`start > end`. -/
def nightWindowActive (z : Area) (now : DateTime) : Bool :=
  let s := z.nightBoostStartTime
  let e := z.nightBoostEndTime
  let c := now.minutes
  if s ≤ e then decide (s ≤ c) && decide (c < e)
  else decide (s ≤ c) || decide (c < e)

/-- Priorities 3-5 of `Area.get_effective_target_temperature` (lines
597-609): the preset temperature when a preset other than `none`/`boost`
is set, else the active-schedule temperature, else the base target. -/
def Area.baseCascadeTarget (gm : AreaManagerCfg) (z : Area) (now : DateTime) : ℚ :=
  if z.presetMode ≠ "none" && z.presetMode ≠ "boost" then
    z.getPresetTemperature gm
  else
    match z.getActiveScheduleTemperature now with
    | some t => t
    | none => z.targetTemperature

/-- The guard of the night-boost addition (lines 618-652): night boost
enabled, current time inside the night window, and the schedule temperature
lookup empty (`in_schedule` false). -/
def Area.nightBoostCondition (z : Area) (now : DateTime) : Bool :=
  z.nightBoostEnabled && nightWindowActive z now &&
    (z.getActiveScheduleTemperature now).isNone

/-- `Area.get_effective_target_temperature` (`area_manager.py` lines
557-680): expire boost, then the priority cascade — boost temperature;
window-open actions; preset temperature; active-schedule temperature; base
target — followed by the additive night boost, which is applied only when
`nightBoostCondition` holds. -/
def Area.getEffectiveTargetTemperature (gm : AreaManagerCfg) (z0 : Area)
    (now : DateTime) : ℚ :=
  let z := z0.checkBoostExpiry now.ts
  if z.boostModeActive then z.boostTemp
  else
    match (if z.windowIsOpen && !z.windowSensors.isEmpty then
             windowLoop z.windowSensors z.targetTemperature
           else none) with
    | some t => t
    | none =>
      if z.nightBoostCondition now then
        z.baseCascadeTarget gm now + z.nightBoostOffset
      else z.baseCascadeTarget gm now

/-- `ScheduleExecutor._find_active_schedule` (`scheduler.py` lines 128-182):
first pass over the schedules of the current day (normal windows
`start ≤ end` match `start ≤ now < end`; midnight-crossing windows match
the late period `now ≥ start`), second pass over midnight-crossing
schedules of the previous day whose early period `now < end` still runs.
The first match in iteration order wins; the `enabled` flag is not
consulted by this method. -/
def findActiveSchedule (schedules : List Schedule) (currentDay : Nat)
    (currentTime : Nat) : Option Schedule :=
  let previousDay := (currentDay + 6) % 7
  match schedules.find? (fun s =>
      s.day == currentDay &&
        (if s.startTime ≤ s.endTime then
           decide (s.startTime ≤ currentTime) && decide (currentTime < s.endTime)
         else decide (s.startTime ≤ currentTime))) with
  | some s => some s
  | none =>
    schedules.find? (fun s =>
      s.day == previousDay && decide (s.endTime < s.startTime) &&
        decide (currentTime < s.endTime))

/-- `_async_update_sensor_states` (`climate_controller.py` lines 162-183),
window part: when the area has window sensors, the cached `window_is_open`
flag becomes the disjunction of the sensors' reported open states. -/
def updateWindowIsOpen (z : Area) : Area :=
  if z.windowSensors.isEmpty then z
  else { z with windowIsOpen := z.windowSensors.any (·.isOpen) }

/-- The climate controller's fixed hysteresis band
(`ClimateController.__init__`: `self._hysteresis = 0.5`). -/
def controllerHysteresis : ℚ := 1/2

/-- Outcome of the per-area loop body of
`ClimateController.async_control_heating` (lines 235-321). -/
inductive ZoneDecision
  /-- heating turned off and state set to `"off"` (area disabled, or HVAC
  mode `"off"`). -/
  | offCmd
  /-- no temperature data: the area is skipped, no command issued. -/
  | skipped
  /-- `should_heat`: heating commanded at the given target. -/
  | heat (target : ℚ)
  /-- `should_stop`: heating stopped, thermostat target updated. -/
  | stop (target : ℚ)
  /-- dead band: neither branch taken, no command, state unchanged. -/
  | deadband
deriving DecidableEq

/-- The per-area body of `ClimateController.async_control_heating` (lines
235-321): disabled areas are turned off; the effective target is computed,
raised to the frost-protection floor when that is enabled; HVAC mode
`"off"` turns the area off; without a current temperature the area is
skipped; otherwise `should_heat = current < target - hysteresis` commands
heating, `should_stop = current ≥ target` commands idle, and in between
nothing is commanded and the area's state is left unchanged. -/
def controlArea (gm : AreaManagerCfg) (z : Area) (now : DateTime) :
    Area × ZoneDecision :=
  if !z.enabled then ({ z with state := "off" }, .offCmd)
  else
    let target0 := z.getEffectiveTargetTemperature gm now
    let target :=
      if gm.frostProtectionEnabled && decide (target0 < gm.frostProtectionTemp)
      then gm.frostProtectionTemp else target0
    if z.hvacMode = "off" then ({ z with state := "off" }, .offCmd)
    else
      match z.currentTemperature with
      | none => (z, .skipped)
      | some current =>
        if current < target - controllerHysteresis then
          ({ z with state := "heating" }, .heat target)
        else if target ≤ current then
          ({ z with state := "idle" }, .stop target)
        else (z, .deadband)

/-- Command issued to the central OpenTherm gateway by one control pass. -/
inductive GatewayCmd
  /-- no gateway configured or OpenTherm control disabled: nothing sent. -/
  | noCmd
  | setTemperature (t : ℚ)
  | turnOff
deriving DecidableEq

/-- `ClimateController._async_control_opentherm_gateway` (lines 598-647):
with OpenTherm enabled and a gateway id configured, any heating demand
drives the boiler to `max_target_temp + 20` and no demand turns it off. -/
def controlOpenthermGateway (gm : AreaManagerCfg) (anyHeating : Bool)
    (maxTargetTemp : ℚ) : GatewayCmd :=
  if !gm.openthermEnabled then .noCmd
  else
    match gm.openthermGatewayId with
    | none => .noCmd
    | some _ =>
      if anyHeating then .setTemperature (maxTargetTemp + 20) else .turnOff

/-- The boost-expiry step of `async_control_heating` (lines 217-221).  The
source calls `area.check_boost_expiry(current_time)` for each area with
`boost_mode_active`, but `Area.check_boost_expiry` (`area_manager.py` line
501) accepts no argument besides `self`, so the first such call raises
`TypeError` and the exception propagates out of the pass. -/
def boostExpiryStep (areas : List Area) : Except String (List Area) :=
  if areas.any (·.boostModeActive) then
    .error "TypeError: check_boost_expiry() takes 1 positional argument but 2 were given"
  else .ok areas

/-- One pass of `ClimateController.async_control_heating` (lines 206-328),
starting from areas whose current-temperature and window-state snapshots
have already been refreshed: the boost-expiry step (which aborts the pass
whenever some area has boost mode active, see `boostExpiryStep`), the
per-area control loop, and the aggregated gateway command computed from
`len(heating_areas) > 0` and `max_target_temp` (initialised to `0.0` and
updated with `max` in the heating branch). -/
def asyncControlHeating (gm : AreaManagerCfg) (areas : List Area)
    (now : DateTime) :
    Except String (List (Area × ZoneDecision) × GatewayCmd) :=
  match boostExpiryStep areas with
  | .error e => .error e
  | .ok areas =>
    let results := areas.map (fun z => controlArea gm z now)
    let heatTargets := results.filterMap (fun r =>
      match r.2 with
      | .heat t => some t
      | _ => none)
    .ok (results,
      controlOpenthermGateway gm (!heatTargets.isEmpty) (heatTargets.foldl max 0))

/-- A pending debounce task of the manual-override detector
(`coordinator.py`): the instant at which `asyncio.sleep` elapses and the
target-temperature value the task will apply. -/
structure DebouncePending where
  deadline : ℚ
  value : ℚ
deriving DecidableEq

/-- Processing of one target-temperature-only state change in
`SmartHeatingCoordinator._handle_state_change` (lines 92-153): a pending
task whose sleep already elapsed has fired (its value is appended to the
list of activations); otherwise the pending task is cancelled; in either
case a fresh task with deadline two seconds ahead
(`MANUAL_TEMP_CHANGE_DEBOUNCE = 2.0`) replaces it. -/
def debounceStep (acc : Option DebouncePending × List ℚ) (event : ℚ × ℚ) :
    Option DebouncePending × List ℚ :=
  let fired :=
    match acc.1 with
    | some p => if p.deadline ≤ event.1 then acc.2 ++ [p.value] else acc.2
    | none => acc.2
  (some ⟨event.1 + 2, event.2⟩, fired)

/-- The values applied by debounced override activations when a sequence of
target-temperature notifications `(time, value)` on one tracked actuator is
processed and all timers are then allowed to elapse. -/
def debounceRun (events : List (ℚ × ℚ)) : List ℚ :=
  match events.foldl debounceStep (none, []) with
  | (some p, fired) => fired ++ [p.value]
  | (none, fired) => fired

/-- The body of `debounced_temp_update` (`coordinator.py` lines 110-147)
after the sleep elapses: the first area whose device dict contains the
actuator id adopts the notified value as its base target temperature and
enters manual-override mode (`break` stops the loop after the first
match). -/
def applyDebouncedUpdate (areas : List Area) (entityId : String) (v : ℚ) :
    List Area :=
  match areas with
  | [] => []
  | a :: rest =>
    if a.devices.any (·.deviceId == entityId) then
      { a with targetTemperature := v, manualOverride := true } :: rest
    else a :: applyDebouncedUpdate rest entityId v

/-- The manual-override detector run end to end: every activation produced
by the debounce discipline is applied to the area list in order. -/
def manualOverrideRun (areas : List Area) (entityId : String)
    (events : List (ℚ × ℚ)) : List Area :=
  (debounceRun events).foldl (fun zs v => applyDebouncedUpdate zs entityId v) areas

/-- `MIN_LEARNING_EVENTS` (`learning_engine.py` line 20). -/
def minLearningEvents : Nat := 20

/-- `statistics.mean` as used on the heating-rate list. -/
def statisticsMean (l : List ℚ) : ℚ := l.sum / l.length

/-- `LearningEngine._async_calculate_outdoor_adjustment` (lines 385-410):
the banded adjustment factor. -/
def outdoorAdjustment (outdoorTemp : ℚ) : ℚ :=
  if 15 ≤ outdoorTemp then 11/10
  else if 5 ≤ outdoorTemp then 1
  else if 0 ≤ outdoorTemp then 9/10
  else 4/5

/-- The mean heating rate after the in-place outdoor adjustment of
`async_predict_heating_time` (lines 327-336): multiplied by the banded
factor when an outdoor reading is available. -/
def adjustedRate (heatingRates : List ℚ) (outdoorTemp : Option ℚ) : ℚ :=
  match outdoorTemp with
  | some o => statisticsMean heatingRates * outdoorAdjustment o
  | none => statisticsMean heatingRates

/-- `LearningEngine.async_predict_heating_time` (lines 301-350), with the
heating-rate history (fetched from the external statistics store) and the
outdoor reading passed as inputs: `None` with fewer than
`MIN_LEARNING_EVENTS` data points; `0` when the temperature delta or the
adjusted mean rate is not positive; otherwise `int(temp_change / avg_rate)`
— Python `int()` truncation, which is the floor of the positive
quotient. -/
def predictHeatingTime (heatingRates : List ℚ) (outdoorTemp : Option ℚ)
    (currentTemp targetTemp : ℚ) : Option ℤ :=
  if heatingRates.length < minLearningEvents then none
  else
    let avgRate := adjustedRate heatingRates outdoorTemp
    let tempChange := targetTemp - currentTemp
    if tempChange ≤ 0 ∨ avgRate ≤ 0 then some 0
    else some ⌊tempChange / avgRate⌋

/-- The guard under which `get_effective_target_temperature` adds the
night-boost offset (lines 617-654): boost not active after expiry, the
window-open branch did not return, night boost enabled, the current time
inside the night window, and the schedule temperature lookup empty. -/
def nightBoostApplies (z0 : Area) (now : DateTime) : Bool :=
  let z := z0.checkBoostExpiry now.ts
  !z.boostModeActive &&
    !(z.windowIsOpen && !z.windowSensors.isEmpty &&
        (windowLoop z.windowSensors z.targetTemperature).isSome) &&
    z.nightBoostCondition now

/-! ## Helper lemmas -/

/-- Decidable equality of pass outcomes, so concrete passes can be
evaluated by `decide`. -/
instance {ε α : Type _} [DecidableEq ε] [DecidableEq α] :
    DecidableEq (Except ε α) := fun x y =>
  match x, y with
  | .error a, .error b =>
    if h : a = b then .isTrue (by rw [h])
    else .isFalse (fun he => h (by injection he))
  | .ok a, .ok b =>
    if h : a = b then .isTrue (by rw [h])
    else .isFalse (fun he => h (by injection he))
  | .error _, .ok _ => .isFalse (fun he => by injection he)
  | .ok _, .error _ => .isFalse (fun he => by injection he)

/-- When boost mode is not active, boost-expiry is the identity. -/
theorem checkBoostExpiry_of_not_active (z : Area) (ts : ℚ)
    (h : z.boostModeActive = false) : z.checkBoostExpiry ts = z := by
  unfold Area.checkBoostExpiry
  simp [h]

/-- Boost expiry commutes with disabling the night-boost flag, which it
never reads. -/
theorem checkBoostExpiry_nbE (z : Area) (ts : ℚ) :
    ({ z with nightBoostEnabled := false } : Area).checkBoostExpiry ts =
      { z.checkBoostExpiry ts with nightBoostEnabled := false } := by
  unfold Area.checkBoostExpiry Area.cancelBoostMode
  cases hb : z.boostModeActive
  · simp [hb]
  · cases he : z.boostEndTime
    · simp [hb, he]
    · simp only [hb, he]
      split_ifs <;> simp [hb, he]

/-- Projections and derived values of an area with night boost disabled;
none of these reads the `nightBoostEnabled` flag. -/
theorem boostModeActive_nbE (v : Area) :
    ({ v with nightBoostEnabled := false } : Area).boostModeActive =
      v.boostModeActive := rfl

theorem boostTemp_nbE (v : Area) :
    ({ v with nightBoostEnabled := false } : Area).boostTemp = v.boostTemp := rfl

theorem windowIsOpen_nbE (v : Area) :
    ({ v with nightBoostEnabled := false } : Area).windowIsOpen =
      v.windowIsOpen := rfl

theorem windowSensors_nbE (v : Area) :
    ({ v with nightBoostEnabled := false } : Area).windowSensors =
      v.windowSensors := rfl

theorem targetTemperature_nbE (v : Area) :
    ({ v with nightBoostEnabled := false } : Area).targetTemperature =
      v.targetTemperature := rfl

theorem baseCascadeTarget_nbE (gm : AreaManagerCfg) (v : Area) (now : DateTime) :
    ({ v with nightBoostEnabled := false } : Area).baseCascadeTarget gm now =
      v.baseCascadeTarget gm now := rfl

theorem nightBoostCondition_nbE (v : Area) (now : DateTime) :
    ({ v with nightBoostEnabled := false } : Area).nightBoostCondition now =
      false := rfl

/-! ## Claims -/

/-- The schedule used by the cross-midnight matching claim:
`Monday 22:00-06:00 @ 18°`, enabled. -/
def monNightSchedule : Schedule where
  scheduleId := "s1"
  startTime := 22 * 60
  endTime := 6 * 60
  temperature := some 18
  presetMode := none
  day := 0
  days := [0]
  enabled := true

/-- C4: an enabled schedule for Monday 22:00-06:00 is found active by the
schedule matcher at Monday 23:30 and at Tuesday 02:00 (cross-midnight), and
is not found active at Tuesday 07:00. -/
theorem cross_midnight_schedule_matching :
    findActiveSchedule [monNightSchedule] 0 (23 * 60 + 30) = some monNightSchedule ∧
    findActiveSchedule [monNightSchedule] 1 (2 * 60) = some monNightSchedule ∧
    findActiveSchedule [monNightSchedule] 1 (7 * 60) = none := by
  decide

/-- C2: for every zone with boost mode active and not expired
(`now < boost end time`), the effective target temperature equals the boost
temperature, whatever the zone's window, preset, schedule and night-boost
settings are. -/
theorem boost_mode_priority (gm : AreaManagerCfg) (z : Area) (now : DateTime)
    (e : ℚ) (hactive : z.boostModeActive = true)
    (hend : z.boostEndTime = some e) (hnow : now.ts < e) :
    z.getEffectiveTargetTemperature gm now = z.boostTemp := by
  unfold Area.getEffectiveTargetTemperature
  rw [show z.checkBoostExpiry now.ts = z by
    unfold Area.checkBoostExpiry
    rw [hactive, hend]
    simp [not_le.mpr hnow]]
  simp [hactive]

/-- Zone used to witness the boost-priority theorem: boost active until
timestamp 100, with an open window, a preset, an active schedule and night
boost all set, none of which may matter. -/
def boostWitnessArea : Area :=
  { defaultArea with
      boostModeActive := true
      boostEndTime := some 100
      boostTemp := 25
      presetMode := "boost"
      windowIsOpen := true
      windowSensors := [⟨"binary_sensor.w", .turnOff, 5, true⟩]
      schedules := [monNightSchedule] }

/-- Witness for C2 at a concrete zone and instant. -/
theorem boost_mode_priority_witness :
    boostWitnessArea.getEffectiveTargetTemperature defaultCfg ⟨0, 23 * 60, 50⟩ = 25 :=
  boost_mode_priority defaultCfg boostWitnessArea ⟨0, 23 * 60, 50⟩ 100 rfl rfl
    (by norm_num)

/-- An area whose boost mode expired at timestamp 10. -/
def boostExpiredArea : Area :=
  { defaultArea with
      areaId := "a2"
      boostModeActive := true
      boostEndTime := some 10
      currentTemperature := some 18 }

/-- C3: a control pass over a zone set containing a zone with an expired
active boost aborts with a `TypeError` before any zone is controlled,
because `async_control_heating` calls `check_boost_expiry(current_time)`
while the method accepts no argument: the boost state is not cleared and
the whole pass (all other zones and the gateway command included) is
abandoned. -/
theorem boost_expiry_step_crashes_pass :
    asyncControlHeating defaultCfg
      [{ defaultArea with areaId := "a1", currentTemperature := some 18 },
       boostExpiredArea] ⟨0, 10 * 60, 100⟩ =
    .error "TypeError: check_boost_expiry() takes 1 positional argument but 2 were given" := by
  rfl

/-- C1: for every enabled zone with a known current temperature that
reaches the hysteresis decision of a control pass (HVAC mode not `"off"`,
frost protection disabled so the decision target is the effective target
`t`): heating is commanded exactly when `current < t - 0.5`, heating is
commanded to stop exactly when `current ≥ t`, and for
`t - 0.5 ≤ current < t` no command is issued and the zone's previous
actuation state is left unchanged (dead band). -/
theorem hysteresis_decision (gm : AreaManagerCfg) (z : Area) (now : DateTime)
    (t c : ℚ) (hen : z.enabled = true) (hhvac : z.hvacMode ≠ "off")
    (hcur : z.currentTemperature = some c)
    (hfrost : gm.frostProtectionEnabled = false)
    (ht : z.getEffectiveTargetTemperature gm now = t) :
    ((controlArea gm z now).2 = .heat t ↔ c < t - 1/2) ∧
    ((controlArea gm z now).2 = .stop t ↔ t ≤ c) ∧
    (t - 1/2 ≤ c → c < t →
      (controlArea gm z now).2 = .deadband ∧ (controlArea gm z now).1 = z) := by
  have hc : controlArea gm z now =
      (if c < t - controllerHysteresis then ({ z with state := "heating" }, .heat t)
       else if t ≤ c then ({ z with state := "idle" }, .stop t)
       else (z, .deadband)) := by
    unfold controlArea
    rw [ht]
    simp [hen, hhvac, hcur, hfrost]
  rw [hc]
  unfold controllerHysteresis
  split_ifs with h1 h2
  · exact ⟨iff_of_true rfl h1, iff_of_false (by simp) (by linarith),
      by intro h; linarith⟩
  · exact ⟨iff_of_false (by simp) h1, iff_of_true rfl h2,
      by intro h h'; linarith⟩
  · exact ⟨iff_of_false (by simp) h1, iff_of_false (by simp) h2,
      fun _ _ => ⟨rfl, rfl⟩⟩

/-- Zone used to witness the hysteresis theorem: base target 20°, current
temperature 19.4°, no other feature active. -/
def hysteresisWitnessArea : Area :=
  { defaultArea with
      currentTemperature := some (97/5)
      nightBoostEnabled := false }

/-- Witness for C1 at the spec's own example (`target=20°`,
`current=19.4°`): heating is commanded. -/
theorem hysteresis_decision_witness :
    ((controlArea defaultCfg hysteresisWitnessArea ⟨0, 10 * 60, 0⟩).2 =
        .heat 20 ↔ (97/5 : ℚ) < 20 - 1/2) ∧
    ((controlArea defaultCfg hysteresisWitnessArea ⟨0, 10 * 60, 0⟩).2 =
        .stop 20 ↔ (20 : ℚ) ≤ 97/5) ∧
    ((20 : ℚ) - 1/2 ≤ 97/5 → (97/5 : ℚ) < 20 →
      (controlArea defaultCfg hysteresisWitnessArea ⟨0, 10 * 60, 0⟩).2 = .deadband ∧
      (controlArea defaultCfg hysteresisWitnessArea ⟨0, 10 * 60, 0⟩).1 =
        hysteresisWitnessArea) :=
  hysteresis_decision defaultCfg hysteresisWitnessArea ⟨0, 10 * 60, 0⟩ 20 (97/5)
    rfl (by decide) rfl rfl (by decide)

/-- C6 (amended): the effective target equals the value the cascade
resolves with night boost disabled, plus the offset exactly when
`nightBoostApplies` holds — i.e. when night boost is enabled, the time is
inside the `[start, end)` window, boost mode is not active, the window-open
branch did not return early, and the schedule temperature lookup is
empty. -/
theorem night_boost_additive_condition (gm : AreaManagerCfg) (z : Area)
    (now : DateTime) :
    z.getEffectiveTargetTemperature gm now =
      ({ z with nightBoostEnabled := false } : Area).getEffectiveTargetTemperature gm now
        + (if nightBoostApplies z now then z.nightBoostOffset else 0) := by
  have hoff : (z.checkBoostExpiry now.ts).nightBoostOffset = z.nightBoostOffset := by
    unfold Area.checkBoostExpiry Area.cancelBoostMode
    cases hb : z.boostModeActive
    · simp [hb]
    · cases he : z.boostEndTime
      · simp [hb, he]
      · simp only [hb, he]
        split_ifs <;> simp [hb]
  unfold Area.getEffectiveTargetTemperature nightBoostApplies
  rw [checkBoostExpiry_nbE, ← hoff]
  simp only [boostModeActive_nbE, boostTemp_nbE, windowIsOpen_nbE,
    windowSensors_nbE, targetTemperature_nbE, baseCascadeTarget_nbE,
    nightBoostCondition_nbE, Bool.false_eq_true, if_false]
  generalize z.checkBoostExpiry now.ts = w
  rcases Bool.eq_false_or_eq_true w.boostModeActive with hb | hb
  · simp [hb]
  · rcases Bool.eq_false_or_eq_true w.windowIsOpen with hwio | hwio
    · rcases Bool.eq_false_or_eq_true w.windowSensors.isEmpty with hemp | hemp
      · have hl : windowLoop w.windowSensors w.targetTemperature = none := by
          cases hs : w.windowSensors
          · rfl
          · rw [hs] at hemp
            simp [List.isEmpty] at hemp
        rcases Bool.eq_false_or_eq_true (w.nightBoostCondition now) with hC | hC <;>
          simp [hb, hwio, hemp, hl, hC]
      · rcases Option.eq_none_or_eq_some
            (windowLoop w.windowSensors w.targetTemperature) with hl | ⟨t, hl⟩
        · rcases Bool.eq_false_or_eq_true (w.nightBoostCondition now) with hC | hC <;>
            simp [hb, hwio, hemp, hl, hC]
        · simp [hb, hwio, hemp, hl]
    · rcases Bool.eq_false_or_eq_true (w.nightBoostCondition now) with hC | hC <;>
        simp [hb, hwio, hC]

/-- Zone refuting C6 as stated: night boost enabled for the default
22:00-06:00 window, boost inactive, no schedules, but an open window with a
`turn_off` action. -/
def nightBoostCexArea : Area :=
  { defaultArea with
      windowIsOpen := true
      windowSensors := [⟨"binary_sensor.w", .turnOff, 5, true⟩] }

/-- Counterexample to C6 as stated: at 23:00 the zone satisfies every
condition the claim lists for adding the offset (time inside the window,
boost mode inactive, not inside an active schedule window, night boost
enabled), yet the window-open branch returns 5.0° without the offset:
the effective target is 5, not 5 + 0.5. -/
theorem night_boost_skipped_when_window_open :
    nightBoostCexArea.getEffectiveTargetTemperature defaultCfg ⟨0, 23 * 60, 0⟩ = 5 ∧
    nightBoostCexArea.nightBoostEnabled = true ∧
    nightWindowActive nightBoostCexArea ⟨0, 23 * 60, 0⟩ = true ∧
    nightBoostCexArea.boostModeActive = false ∧
    (nightBoostCexArea.getActiveScheduleTemperature ⟨0, 23 * 60, 0⟩).isNone = true ∧
    (5 : ℚ) ≠ 5 + nightBoostCexArea.nightBoostOffset := by
  refine ⟨rfl, rfl, rfl, rfl, rfl, by norm_num [nightBoostCexArea, defaultArea]⟩

/-- C5 (amended): for a zone with boost inactive, window flag clear and
preset `"none"`, whose latest active schedule at `now` is `s`: when `s`
carries a literal temperature the effective target equals it; when `s`
references a preset mode instead (`temperature` absent), the schedule
lookup yields no temperature and the effective target falls back to the
zone's base target, to which night boost may then be added. -/
theorem active_schedule_temperature_resolution (gm : AreaManagerCfg)
    (z : Area) (now : DateTime) (s : Schedule)
    (hb : z.boostModeActive = false) (hw : z.windowIsOpen = false)
    (hp : z.presetMode = "none")
    (hs : pickLatest (z.schedules.filter (·.isActive now)) = some s) :
    z.getEffectiveTargetTemperature gm now =
      match s.temperature with
      | some t => t
      | none =>
        z.targetTemperature +
          (if z.nightBoostEnabled && nightWindowActive z now then
            z.nightBoostOffset else 0) := by
  have hsched : z.getActiveScheduleTemperature now = s.temperature := by
    unfold Area.getActiveScheduleTemperature
    rw [hs]
  unfold Area.getEffectiveTargetTemperature
  rw [checkBoostExpiry_of_not_active z now.ts hb]
  simp only [hb, Bool.false_eq_true, if_false, hw, Bool.false_and, ite_false]
  unfold Area.nightBoostCondition Area.baseCascadeTarget
  rw [hsched]
  have hpfalse : (z.presetMode ≠ "none" && z.presetMode ≠ "boost") = false := by
    simp [hp]
  rw [hpfalse]
  simp only [Bool.false_eq_true, if_false]
  cases ht : s.temperature
  · simp only [ht, Option.isNone_none, Bool.and_true]
    split_ifs with h <;> simp
  · simp [ht]

/-- Monday 08:00-23:59 @ 18° literal-temperature schedule. -/
def mondayDaySchedule : Schedule where
  scheduleId := "s2"
  startTime := 8 * 60
  endTime := 23 * 60 + 59
  temperature := some 18
  presetMode := none
  day := 0
  days := [0]
  enabled := true

/-- Zone whose only schedule is `mondayDaySchedule`, with night boost
disabled to keep the witness plain. -/
def scheduleWitnessArea : Area :=
  { defaultArea with
      schedules := [mondayDaySchedule]
      nightBoostEnabled := false }

/-- Witness for the amended C5 theorem: on Monday 10:00 the schedule's
literal temperature 18° becomes the effective target. -/
theorem active_schedule_temperature_resolution_witness :
    scheduleWitnessArea.getEffectiveTargetTemperature defaultCfg
      ⟨0, 10 * 60, 0⟩ = 18 :=
  active_schedule_temperature_resolution defaultCfg scheduleWitnessArea
    ⟨0, 10 * 60, 0⟩ mondayDaySchedule rfl rfl rfl rfl

/-- A preset-referencing schedule: Monday 08:00-23:59 @ preset `sleep`,
with no literal temperature. -/
def presetRefSchedule : Schedule where
  scheduleId := "p1"
  startTime := 8 * 60
  endTime := 23 * 60 + 59
  temperature := none
  presetMode := some "sleep"
  day := 0
  days := [0]
  enabled := true

/-- Zone whose only schedule is the preset-referencing one. -/
def presetRefArea : Area :=
  { defaultArea with
      schedules := [presetRefSchedule]
      nightBoostEnabled := false }

/-- Counterexample to C5 as stated: on Monday 10:00 the preset-referencing
schedule is active and its preset (`sleep`, resolved globally to 18.5°)
should per the claim become the effective target, but the schedule lookup
returns the schedule's absent literal temperature and the cascade falls
back to the base target 20°. -/
theorem preset_schedule_falls_back_to_base :
    presetRefSchedule.isActive ⟨0, 10 * 60, 0⟩ = true ∧
    presetRefSchedule.temperature = none ∧
    presetRefSchedule.presetMode = some "sleep" ∧
    ({ presetRefArea with presetMode := "sleep" } : Area).getPresetTemperature
      defaultCfg = 37/2 ∧
    presetRefArea.getEffectiveTargetTemperature defaultCfg ⟨0, 10 * 60, 0⟩ = 20 ∧
    (20 : ℚ) ≠ 37/2 := by
  refine ⟨rfl, rfl, rfl, rfl, rfl, by norm_num⟩

/-- The effective targets of the areas commanded to heat in one control
pass. -/
def heatTargetsOf (gm : AreaManagerCfg) (areas : List Area) (now : DateTime) :
    List ℚ :=
  (areas.map (fun z => controlArea gm z now)).filterMap (fun r =>
    match r.2 with
    | .heat t => some t
    | _ => none)

/-- C7 (amended): in a control pass with OpenTherm enabled and a gateway
configured (and no boost-active zone, which would crash the pass): when at
least one zone is commanded to heat, the gateway receives a set-temperature
command of `foldl max 0 (heating targets) + 20` — the aggregation maximum
starts at `0.0`, so the setpoint is `max(0, max heating target) + 20`;
when no zone heats, the gateway receives its turn-off command. -/
theorem opentherm_max_demand_aggregation (gm : AreaManagerCfg)
    (areas : List Area) (now : DateTime) (g : String)
    (hen : gm.openthermEnabled = true) (hg : gm.openthermGatewayId = some g)
    (hboost : ∀ z ∈ areas, z.boostModeActive = false) :
    asyncControlHeating gm areas now =
      .ok (areas.map (fun z => controlArea gm z now),
        if (heatTargetsOf gm areas now).isEmpty then GatewayCmd.turnOff
        else .setTemperature ((heatTargetsOf gm areas now).foldl max 0 + 20)) := by
  have hstep : boostExpiryStep areas = .ok areas := by
    unfold boostExpiryStep
    have hany : areas.any (·.boostModeActive) = false := by
      rw [List.any_eq_false]
      intro z hz
      simp [hboost z hz]
    simp [hany]
  unfold asyncControlHeating heatTargetsOf
  rw [hstep]
  unfold controlOpenthermGateway
  simp only [hen, hg, Bool.not_true, Bool.false_eq_true, if_false]
  cases h : ((areas.map (fun z => controlArea gm z now)).filterMap (fun r =>
      match r.2 with
      | .heat t => some t
      | _ => none)).isEmpty <;> simp [h]

/-- Global configuration with an OpenTherm gateway enabled. -/
def gatewayCfg : AreaManagerCfg :=
  { defaultCfg with
      openthermEnabled := true
      openthermGatewayId := some "climate.otgw" }

/-- Zone heating towards 20° (current temperature 15°). -/
def gatewayWitnessArea : Area :=
  { defaultArea with
      currentTemperature := some 15
      nightBoostEnabled := false }

/-- Witness for the amended C7 theorem: one heating zone targeting 20°
drives the boiler to 40°. -/
theorem opentherm_max_demand_aggregation_witness :
    asyncControlHeating gatewayCfg [gatewayWitnessArea] ⟨0, 10 * 60, 0⟩ =
      .ok ([({ gatewayWitnessArea with state := "heating" },
              ZoneDecision.heat 20)],
        GatewayCmd.setTemperature 40) := by
  have hctrl : controlArea gatewayCfg gatewayWitnessArea ⟨0, 10 * 60, 0⟩ =
      ({ gatewayWitnessArea with state := "heating" }, ZoneDecision.heat 20) := by
    have heff : Area.getEffectiveTargetTemperature gatewayCfg gatewayWitnessArea
        ⟨0, 10 * 60, 0⟩ = 20 := rfl
    unfold controlArea
    rw [heff]
    norm_num [gatewayWitnessArea, gatewayCfg, defaultArea, defaultCfg,
      controllerHysteresis]
    intro h
    exact absurd h (by decide)
  have h := opentherm_max_demand_aggregation gatewayCfg [gatewayWitnessArea]
    ⟨0, 10 * 60, 0⟩ "climate.otgw" rfl rfl (by
      intro z hz
      simp only [List.mem_singleton] at hz
      rw [hz]
      rfl)
  rw [h]
  simp only [heatTargetsOf, List.map_cons, List.map_nil, hctrl,
    List.filterMap_cons, List.filterMap_nil, List.isEmpty_cons,
    Bool.false_eq_true, if_false, List.foldl_cons, List.foldl_nil]
  rw [show (0 : ℚ) ⊔ 20 = 20 from max_eq_right (by norm_num)]
  norm_num

/-- Zone heating towards a negative effective target of -10° (current
temperature -11°). -/
def negativeTargetArea : Area :=
  { defaultArea with
      targetTemperature := -10
      currentTemperature := some (-11)
      nightBoostEnabled := false }

/-- Counterexample to C7 as stated: the single heating zone's effective
target is -10°, so the claim requires the boiler setpoint -10+20 = 10°, but
the `max_target_temp` accumulator starts at 0.0 and the pass commands
0+20 = 20°. -/
theorem opentherm_setpoint_not_max_of_heating_targets :
    negativeTargetArea.getEffectiveTargetTemperature gatewayCfg
      ⟨0, 10 * 60, 0⟩ = -10 ∧
    asyncControlHeating gatewayCfg [negativeTargetArea] ⟨0, 10 * 60, 0⟩ =
      .ok ([({ negativeTargetArea with state := "heating" },
              ZoneDecision.heat (-10))],
        GatewayCmd.setTemperature 20) ∧
    ((-10 : ℚ) + 20 ≠ 20) := by
  have hctrl : controlArea gatewayCfg negativeTargetArea ⟨0, 10 * 60, 0⟩ =
      ({ negativeTargetArea with state := "heating" },
        ZoneDecision.heat (-10)) := by
    have heff : Area.getEffectiveTargetTemperature gatewayCfg negativeTargetArea
        ⟨0, 10 * 60, 0⟩ = -10 := rfl
    unfold controlArea
    rw [heff]
    norm_num [negativeTargetArea, gatewayCfg, defaultArea, defaultCfg,
      controllerHysteresis]
    intro h
    exact absurd h (by decide)
  refine ⟨rfl, ?_, by norm_num⟩
  have hstep : boostExpiryStep [negativeTargetArea] = .ok [negativeTargetArea] := rfl
  unfold asyncControlHeating
  rw [hstep]
  simp only [List.map_cons, List.map_nil, hctrl, List.filterMap_cons,
    List.filterMap_nil, List.isEmpty_cons, Bool.false_eq_true, if_false,
    List.foldl_cons, List.foldl_nil]
  unfold controlOpenthermGateway
  simp only [gatewayCfg, defaultCfg, Bool.not_true, Bool.false_eq_true,
    if_false, if_true]
  rw [show (0 : ℚ) ⊔ -10 = 0 from max_eq_left (by norm_num)]
  norm_num

/-- The window loop returns the action of the first sensor whose configured
action is not `none`, applied to the base target. -/
theorem windowLoop_eq_find (sensors : List WindowSensor) (base : ℚ) :
    windowLoop sensors base =
      (sensors.find? (fun s => s.actionWhenOpen != WindowAction.noAction)).map
        (fun s =>
          if s.actionWhenOpen = .turnOff then (5 : ℚ)
          else max 5 (base - s.tempDrop)) := by
  induction sensors with
  | nil => rfl
  | cons a rest ih =>
    cases ha : a.actionWhenOpen <;>
      simp [windowLoop, List.find?, ha, ih,
        show (WindowAction.turnOff != WindowAction.noAction) = true from rfl,
        show (WindowAction.reduceTemperature != WindowAction.noAction) = true from rfl,
        show (WindowAction.noAction != WindowAction.noAction) = false from rfl]

/-- C8 (amended): for a zone with boost inactive whose cached window-open
flag is set, the first sensor in the configured list whose action is not
`none` decides the result — 5.0° for `turn_off`, `max(5, base − its
temp_drop)` for `reduce_temperature` — regardless of which sensor actually
reports open; sensors with action `none` are skipped. -/
theorem window_open_first_triggering_action (gm : AreaManagerCfg) (z : Area)
    (now : DateTime) (s : WindowSensor)
    (hb : z.boostModeActive = false) (hw : z.windowIsOpen = true)
    (hfind : z.windowSensors.find?
      (fun s => s.actionWhenOpen != WindowAction.noAction) = some s) :
    z.getEffectiveTargetTemperature gm now =
      if s.actionWhenOpen = .turnOff then 5
      else max 5 (z.targetTemperature - s.tempDrop) := by
  have hne : z.windowSensors.isEmpty = false := by
    cases hs : z.windowSensors
    · rw [hs] at hfind
      simp [List.find?] at hfind
    · rfl
  unfold Area.getEffectiveTargetTemperature
  rw [checkBoostExpiry_of_not_active z now.ts hb]
  simp only [hb, Bool.false_eq_true, if_false, hw, Bool.true_and, hne,
    Bool.not_false, Bool.and_true, if_true]
  rw [windowLoop_eq_find, hfind]
  rfl

/-- The spec's example sensor: open window with `reduce_temperature` and a
3° drop. -/
def reduceSensor : WindowSensor :=
  ⟨"binary_sensor.window", .reduceTemperature, 3, true⟩

/-- Zone with base target 20° and the example sensor, window-open flag
set. -/
def windowWitnessArea : Area :=
  { defaultArea with
      windowIsOpen := true
      windowSensors := [reduceSensor] }

/-- Witness for the amended C8 theorem at the spec's example: base 20°,
drop 3° gives max(5, 17) = 17°. -/
theorem window_open_first_triggering_action_witness :
    windowWitnessArea.getEffectiveTargetTemperature defaultCfg
      ⟨0, 12 * 60, 0⟩ = 17 := by
  have h := window_open_first_triggering_action defaultCfg windowWitnessArea
    ⟨0, 12 * 60, 0⟩ reduceSensor rfl rfl rfl
  rw [h]
  rw [show windowWitnessArea.targetTemperature - reduceSensor.tempDrop = 17 by
    norm_num [windowWitnessArea, defaultArea, reduceSensor]]
  simp only [reduceSensor]
  rw [if_neg (by decide)]
  exact max_eq_right (by norm_num)

/-- A closed window sensor with `reduce_temperature`, listed before an open
sensor with `turn_off`. -/
def closedReduceSensor : WindowSensor :=
  ⟨"binary_sensor.a", .reduceTemperature, 3, false⟩

/-- The open sensor with `turn_off`, listed second. -/
def openTurnOffSensor : WindowSensor :=
  ⟨"binary_sensor.b", .turnOff, 5, true⟩

/-- Zone with the two sensors above, its window-open flag computed by the
sensor-state refresh (true: sensor b is open). -/
def windowCexArea : Area :=
  updateWindowIsOpen
    { defaultArea with
        windowSensors := [closedReduceSensor, openTurnOffSensor]
        nightBoostEnabled := false }

/-- Counterexample to C8 as stated: sensor b reports open and has action
`turn_off`, so the claim requires the effective target 5.0°; but the window
loop uses the first configured sensor with a non-`none` action — the closed
sensor a with `reduce_temperature` — and yields max(5, 20−3) = 17°. -/
theorem window_open_ignores_which_sensor_is_open :
    windowCexArea.windowIsOpen = true ∧
    closedReduceSensor.isOpen = false ∧
    openTurnOffSensor.isOpen = true ∧
    openTurnOffSensor.actionWhenOpen = .turnOff ∧
    windowCexArea.getEffectiveTargetTemperature defaultCfg ⟨0, 12 * 60, 0⟩ = 17 ∧
    (17 : ℚ) ≠ 5 := by
  have heff : windowCexArea.getEffectiveTargetTemperature defaultCfg
      ⟨0, 12 * 60, 0⟩ = max 5 (20 - 3) := rfl
  refine ⟨rfl, rfl, rfl, rfl, ?_, by norm_num⟩
  rw [heff, show (20 : ℚ) - 3 = 17 by norm_num]
  exact max_eq_right (by norm_num)

/-- Folding further events over a live pending task: as long as each event
arrives before the previous task's deadline, no task ever fires and the
pending task always carries the most recent event. -/
theorem debounce_fold_aux (rest : List (ℚ × ℚ)) :
    ∀ e : ℚ × ℚ,
      List.Chain (fun a b => a.1 ≤ b.1 ∧ b.1 < a.1 + 2) e rest →
      rest.foldl debounceStep (some ⟨e.1 + 2, e.2⟩, []) =
        (some ⟨(rest.foldl (fun _ x => x) e).1 + 2,
               (rest.foldl (fun _ x => x) e).2⟩, ([] : List ℚ)) := by
  induction rest with
  | nil => intro e _; rfl
  | cons b rest ih =>
    intro e hchain
    rcases hchain with _ | ⟨hR, hchain'⟩
    have hstep : debounceStep (some ⟨e.1 + 2, e.2⟩, []) b =
        (some ⟨b.1 + 2, b.2⟩, []) := by
      simp [debounceStep, not_le.mpr hR.2]
    rw [List.foldl_cons, hstep, ih b hchain', List.foldl_cons]

/-- C9: for a nonempty sequence of target-temperature-only notifications on
one tracked actuator, each arriving within the 2-second debounce delay of
the previous one, exactly one override activation fires, carrying the last
notified value; applied to the zone owning the actuator it sets that zone's
base target to the last value and raises its manual-override flag. -/
theorem debounced_manual_override (e : ℚ × ℚ) (rest : List (ℚ × ℚ))
    (z : Area) (entityId : String)
    (hchain : List.Chain (fun a b => a.1 ≤ b.1 ∧ b.1 < a.1 + 2) e rest)
    (hown : z.devices.any (·.deviceId == entityId) = true) :
    debounceRun (e :: rest) = [(rest.foldl (fun _ x => x) e).2] ∧
    manualOverrideRun [z] entityId (e :: rest) =
      [{ z with targetTemperature := (rest.foldl (fun _ x => x) e).2,
                manualOverride := true }] := by
  have hrun : debounceRun (e :: rest) = [(rest.foldl (fun _ x => x) e).2] := by
    unfold debounceRun
    rw [List.foldl_cons,
      show debounceStep (none, []) e = (some ⟨e.1 + 2, e.2⟩, []) from rfl,
      debounce_fold_aux rest e hchain]
    simp
  refine ⟨hrun, ?_⟩
  unfold manualOverrideRun
  rw [hrun, List.foldl_cons, List.foldl_nil]
  unfold applyDebouncedUpdate
  rw [if_pos hown]

/-- Zone owning the tracked thermostat. -/
def overrideWitnessArea : Area :=
  { defaultArea with devices := [⟨"climate.living", "thermostat"⟩] }

/-- Witness for C9: three temperature notifications at t = 0, 1 and 1.5
seconds (values 19°, 21°, 22°), each within 2 s of the previous one,
produce exactly one activation with the last value 22°. -/
theorem debounced_manual_override_witness :
    debounceRun [(0, 19), (1, 21), (3/2, 22)] = [22] ∧
    manualOverrideRun [overrideWitnessArea] "climate.living"
        [(0, 19), (1, 21), (3/2, 22)] =
      [{ overrideWitnessArea with targetTemperature := 22,
                                  manualOverride := true }] :=
  debounced_manual_override (0, 19) [(1, 21), (3/2, 22)] overrideWitnessArea
    "climate.living"
    (List.Chain.cons ⟨by norm_num, by norm_num⟩
      (List.Chain.cons ⟨by norm_num, by norm_num⟩ List.Chain.nil))
    rfl

/-- C10 (amended): the prediction returns `none` with fewer than 20
heating-rate data points; with at least 20 points, a positive temperature
delta and a positive adjusted mean rate (the mean multiplied by the banded
outdoor factor when an outdoor reading is available) it returns the Python
`int()` truncation `⌊Δ / rate⌋`, a nonnegative integer which is 0 — not
positive — whenever the quotient is below one. -/
theorem predict_heating_time_characterization (rates : List ℚ)
    (outdoor : Option ℚ) (c t : ℚ) :
    (rates.length < minLearningEvents →
      predictHeatingTime rates outdoor c t = none) ∧
    (minLearningEvents ≤ rates.length → 0 < t - c →
      0 < adjustedRate rates outdoor →
      predictHeatingTime rates outdoor c t =
          some ⌊(t - c) / adjustedRate rates outdoor⌋ ∧
        0 ≤ ⌊(t - c) / adjustedRate rates outdoor⌋) := by
  constructor
  · intro h
    unfold predictHeatingTime
    rw [if_pos h]
  · intro hlen hd hr
    constructor
    · unfold predictHeatingTime
      rw [if_neg (not_lt.mpr hlen), if_neg]
      push_neg
      exact ⟨hd, hr⟩
    · exact Int.floor_nonneg.mpr (div_nonneg hd.le hr.le)

/-- Twenty heating-rate data points of 0.1 °C/min each. -/
def witnessRates : List ℚ := List.replicate 20 (1/10)

/-- Witness for the amended C10 theorem: 20 data points of rate 0.1, an
outdoor reading of 20° (banded factor 1.1), heating from 20° to 22°. -/
theorem predict_heating_time_characterization_witness :
    predictHeatingTime witnessRates (some 20) 20 22 =
        some ⌊((22 : ℚ) - 20) / adjustedRate witnessRates (some 20)⌋ ∧
      0 ≤ ⌊((22 : ℚ) - 20) / adjustedRate witnessRates (some 20)⌋ :=
  (predict_heating_time_characterization witnessRates (some 20) 20 22).2
    (by norm_num [witnessRates, minLearningEvents]) (by norm_num)
    (by
      norm_num [adjustedRate, statisticsMean, outdoorAdjustment, witnessRates,
        List.sum_replicate])

/-- Counterexample to C10 as stated: with exactly 20 data points of rate
1 °C/min, no outdoor reading, and a positive delta of 0.5°, the quotient is
0.5 and Python `int()` truncation yields 0 — not a positive integer, and
not equal to the delta divided by the mean rate. -/
theorem predict_returns_zero_for_small_delta :
    (List.replicate 20 (1 : ℚ)).length = 20 ∧
    (0 : ℚ) < 41/2 - 20 ∧
    predictHeatingTime (List.replicate 20 (1 : ℚ)) none 20 (41/2) = some 0 ∧
    ¬ (0 : ℤ) > 0 := by
  refine ⟨rfl, by norm_num, ?_, by norm_num⟩
  unfold predictHeatingTime
  rw [if_neg (by norm_num [minLearningEvents])]
  rw [if_neg]
  · have hrate : adjustedRate (List.replicate 20 (1 : ℚ)) none = 1 := by
      norm_num [adjustedRate, statisticsMean, List.sum_replicate]
    rw [hrate, div_one, show (41 : ℚ)/2 - 20 = 1/2 by norm_num]
    rw [show ⌊(1/2 : ℚ)⌋ = 0 from
      Int.floor_eq_zero_iff.mpr ⟨by norm_num, by norm_num⟩]
  · push_neg
    constructor
    · norm_num
    · norm_num [adjustedRate, statisticsMean, List.sum_replicate]

end SmartHeating
